import Mathlib

/-!
Shallow embedding of the universal Cloudflare Turnstile form handler
(src/cloudflare-turnstile-handler.js) together with proofs about its
payload collection, trap injection, challenge-script loading, submit
interception and UI state handling.

Modelling conventions:
* JS objects built by property assignment are association lists;
  assignment replaces an existing binding in place, otherwise appends.
* JS string truthiness (null/undefined and the empty string are falsy)
  is modelled explicitly wherever the source relies on it.
* DOM queries are reads over explicit lists kept in document order.
-/

namespace TurnstileHandler

/-- FORM_CONFIG.loadingText. -/
def loadingText : String := "Sending..."

/-- FORM_CONFIG.hideClass. -/
def hideClass : String := "hide"

/-- FORM_CONFIG.enableHoneypot. -/
def enableHoneypot : Bool := true

/-- FORM_CONFIG.honeypotFieldNames. -/
def honeypotFieldNames : List String :=
  ["honeypot_website", "honeypot_url", "honeypot_company_site",
   "honeypot_business_url", "bot_trap_website", "bot_trap_url",
   "spam_trap_site", "spam_trap_link"]

/-- FORM_CONFIG.pageUrlField.enabled. -/
def pageUrlFieldEnabled : Bool := true

/-- FORM_CONFIG.pageUrlField.fieldName. -/
def pageUrlFieldName : String := "Page URL"

/-- Message shown by handleFormSubmit when the token is missing. -/
def verificationRequiredMessage : String := "Please complete the security verification."

/-- Generic fallback used when the worker supplies no error message. -/
def genericFallbackMessage : String := "Something went wrong. Please try again."

/-- Message shown on a network or parse failure. -/
def networkErrorMessage : String := "Network error. Please check your connection and try again."

/-- Values stored in the collected formData object. -/
inductive JSValue where
  | s (v : String)
  | b (v : Bool)
  | obj (entries : List (String × String))
deriving DecidableEq

/-- JS property assignment o[k] = v on an object modelled as an
association list: an existing binding is replaced in place, otherwise
the binding is appended at the end. -/
def jsAssign {β : Type} : List (String × β) → String → β → List (String × β)
  | [], k, v => [(k, v)]
  | (k0, v0) :: t, k, v =>
    if k0 = k then (k, v) :: t else (k0, v0) :: jsAssign t k v

/-- JS property read o[k]. -/
def jsGet {β : Type} : List (String × β) → String → Option β
  | [], _ => none
  | (k0, v0) :: t, k => if k0 = k then some v0 else jsGet t k

/-- JS truthiness of a possibly-undefined string: undefined (none) and
the empty string are falsy. -/
def jsTruthyStr : Option String → Bool
  | none => false
  | some s => !(s == "")

theorem jsGet_jsAssign_self {β : Type} (l : List (String × β)) (k : String) (v : β) :
    jsGet (jsAssign l k v) k = some v := by
  induction l with
  | nil => simp [jsAssign, jsGet]
  | cons hd t ih =>
    obtain ⟨k0, v0⟩ := hd
    by_cases h : k0 = k
    · simp [jsAssign, jsGet, h]
    · simp [jsAssign, jsGet, h, ih]

theorem jsGet_jsAssign_ne {β : Type} (l : List (String × β)) (k k' : String) (v : β)
    (h : k' ≠ k) : jsGet (jsAssign l k v) k' = jsGet l k' := by
  have hk : ¬(k = k') := fun hh => h hh.symm
  induction l with
  | nil => simp [jsAssign, jsGet, hk]
  | cons hd t ih =>
    obtain ⟨k0, v0⟩ := hd
    by_cases h0 : k0 = k
    · subst h0
      simp [jsAssign, jsGet, hk]
    · simp [jsAssign, jsGet, h0, ih]

theorem jsGet_jsAssign_isSome {β : Type} (l : List (String × β)) (k k' : String) (v : β)
    (h : (jsGet l k').isSome) : (jsGet (jsAssign l k v) k').isSome := by
  by_cases hk : k' = k
  · subst hk
    simp [jsGet_jsAssign_self]
  · rw [jsGet_jsAssign_ne l k k' v hk]
    exact h

/-- One element returned by querySelectorAll("input, textarea, select")
on a form: exactly the properties and attributes the handler reads.  A
missing name attribute reflects as the empty name property. -/
structure FormControl where
  name : String
  type : String
  value : String
  checked : Bool
  cfFieldType : Option String
  cfFieldData : Option String
  dataHoneypot : Bool
  dataPageUrl : Bool
deriving DecidableEq

/-- A form element, as its list of controls in document order (the
result of querySelectorAll("input, textarea, select")). -/
structure FormElement where
  controls : List FormControl
deriving DecidableEq

/-- Accumulator of the inputs.forEach loop in collectFormData. -/
structure CollectAcc where
  formData : List (String × JSValue)
  fieldTypes : List (String × String)
  fieldDataDescriptions : List (String × String)
deriving DecidableEq

/-- Body of the inputs.forEach loop in collectFormData: controls with a
(truthy) name and a type other than submit contribute a value —
checkboxes their checked state as a boolean, radios their value only
when checked, everything else its string value — and their declared
type/data annotations when those attributes are truthy. -/
def collectStep (acc : CollectAcc) (input : FormControl) : CollectAcc :=
  if input.name ≠ "" ∧ input.type ≠ "submit" then
    let fd :=
      if input.type = "checkbox" then
        jsAssign acc.formData input.name (JSValue.b input.checked)
      else if input.type = "radio" then
        if input.checked then
          jsAssign acc.formData input.name (JSValue.s input.value)
        else acc.formData
      else
        jsAssign acc.formData input.name (JSValue.s input.value)
    let ft :=
      if jsTruthyStr input.cfFieldType then
        jsAssign acc.fieldTypes input.name (input.cfFieldType.getD "")
      else acc.fieldTypes
    let fdd :=
      if jsTruthyStr input.cfFieldData then
        jsAssign acc.fieldDataDescriptions input.name (input.cfFieldData.getD "")
      else acc.fieldDataDescriptions
    { formData := fd, fieldTypes := ft, fieldDataDescriptions := fdd }
  else acc

/-- collectFormData: serialize every control, then append the honeypot
evidence (name of the first honeypot-marked input and whether it was
filled) and the fieldTypes / fieldDataDescriptions maps. -/
def collectFormData (form : FormElement) : List (String × JSValue) :=
  let acc := form.controls.foldl collectStep ⟨[], [], []⟩
  let fd := acc.formData
  let fd :=
    if enableHoneypot then
      match form.controls.find? (fun i => i.dataHoneypot) with
      | some h =>
        jsAssign (jsAssign fd "_honeypot_field_name" (JSValue.s h.name))
          "_honeypot_filled" (JSValue.b (!(h.value == "")))
      | none => fd
    else fd
  let fd := jsAssign fd "fieldTypes" (JSValue.obj acc.fieldTypes)
  jsAssign fd "fieldDataDescriptions" (JSValue.obj acc.fieldDataDescriptions)

/-- The collection loop processes a control iff it has a (truthy) name
and its type is not submit — the guard on line 471 of the source. -/
def processedCtrl (i : FormControl) : Prop := i.name ≠ "" ∧ i.type ≠ "submit"

instance (i : FormControl) : Decidable (processedCtrl i) := by
  unfold processedCtrl; infer_instance

/-- The value a single processed control writes into formData (none for
an unchecked radio, which writes nothing). -/
def contribVal (i : FormControl) : Option JSValue :=
  if i.type = "checkbox" then some (JSValue.b i.checked)
  else if i.type = "radio" then
    if i.checked then some (JSValue.s i.value) else none
  else some (JSValue.s i.value)

/-- The last value the loop writes under key n (later controls
overwrite earlier ones; unwritten keys give none). -/
def lastWrite : List FormControl → String → Option JSValue
  | [], _ => none
  | i :: t, n =>
    match lastWrite t n with
    | some v => some v
    | none => if i.name = n ∧ processedCtrl i then contribVal i else none

theorem lastWrite_nil (n : String) : lastWrite [] n = none := rfl

theorem lastWrite_cons (i : FormControl) (t : List FormControl) (n : String) :
    lastWrite (i :: t) n =
      match lastWrite t n with
      | some v => some v
      | none => if i.name = n ∧ processedCtrl i then contribVal i else none := rfl

theorem jsGet_collectStep (acc : CollectAcc) (i : FormControl) (n : String) :
    jsGet (collectStep acc i).formData n =
      match (if i.name = n ∧ processedCtrl i then contribVal i else none) with
      | some v => some v
      | none => jsGet acc.formData n := by
  by_cases hp : i.name ≠ "" ∧ i.type ≠ "submit"
  · have hpc : processedCtrl i := hp
    by_cases hn : i.name = n
    · subst hn
      have hrw : ∀ (l : List (String × JSValue)) (v : JSValue),
          jsGet (jsAssign l i.name v) i.name = some v :=
        fun l v => jsGet_jsAssign_self l i.name v
      by_cases hc : i.type = "checkbox"
      · simp [collectStep, contribVal, hp, hpc, hc, hrw]
      · by_cases hr : i.type = "radio"
        · by_cases hch : i.checked <;>
            simp [collectStep, contribVal, hp, hpc, hc, hr, hch, hrw]
        · simp [collectStep, contribVal, hp, hpc, hc, hr, hrw]
    · have hne : n ≠ i.name := fun hh => hn hh.symm
      have hrw : ∀ (l : List (String × JSValue)) (v : JSValue),
          jsGet (jsAssign l i.name v) n = jsGet l n :=
        fun l v => jsGet_jsAssign_ne l i.name n v hne
      by_cases hc : i.type = "checkbox"
      · simp [collectStep, hp, hn, hc, hrw]
      · by_cases hr : i.type = "radio"
        · by_cases hch : i.checked <;> simp [collectStep, hp, hn, hc, hr, hch, hrw]
        · simp [collectStep, hp, hn, hc, hr, hrw]
  · have hpc : ¬processedCtrl i := hp
    simp [collectStep, hp, hpc]

theorem jsGet_collectLoop (l : List FormControl) (acc : CollectAcc) (n : String) :
    jsGet (l.foldl collectStep acc).formData n =
      match lastWrite l n with
      | some v => some v
      | none => jsGet acc.formData n := by
  induction l generalizing acc with
  | nil => simp [lastWrite_nil]
  | cons i t ih =>
    rw [List.foldl_cons, ih (collectStep acc i), lastWrite_cons]
    cases ht : lastWrite t n with
    | some v => simp
    | none =>
      simp only
      rw [jsGet_collectStep]

/-- Reading collectFormData at a key distinct from the four bookkeeping
keys appended after the loop gives exactly the last value the loop
wrote under that key. -/
theorem jsGet_collectFormData (form : FormElement) (n : String)
    (h1 : n ≠ "_honeypot_field_name") (h2 : n ≠ "_honeypot_filled")
    (h3 : n ≠ "fieldTypes") (h4 : n ≠ "fieldDataDescriptions") :
    jsGet (collectFormData form) n = lastWrite form.controls n := by
  unfold collectFormData
  simp only [enableHoneypot, if_pos]
  rw [jsGet_jsAssign_ne _ _ _ _ h4, jsGet_jsAssign_ne _ _ _ _ h3]
  cases hf : form.controls.find? (fun i => i.dataHoneypot) with
  | some h =>
    rw [jsGet_jsAssign_ne _ _ _ _ h2, jsGet_jsAssign_ne _ _ _ _ h1]
    rw [jsGet_collectLoop]
    cases lastWrite form.controls n <;> simp [jsGet]
  | none =>
    rw [jsGet_collectLoop]
    cases lastWrite form.controls n <;> simp [jsGet]

/-- lastWrite only depends on the controls carrying the key as name. -/
theorem lastWrite_filter (l : List FormControl) (n : String) :
    lastWrite l n = lastWrite (l.filter (fun i => i.name = n)) n := by
  induction l with
  | nil => simp
  | cons i t ih =>
    by_cases hn : i.name = n
    · simp only [List.filter_cons, hn]
      simp only [decide_True, if_true, lastWrite_cons, ih]
    · simp only [List.filter_cons, hn]
      simp only [decide_False, if_false, lastWrite_cons, ih]
      cases hl : lastWrite (t.filter (fun i => i.name = n)) n with
      | some v => simp [hl]
      | none => simp [hl, hn]

/-- If every control bearing the key contributes nothing (is skipped or
writes nothing), the loop leaves the key unwritten. -/
theorem lastWrite_eq_none (l : List FormControl) (n : String)
    (h : ∀ i ∈ l, i.name = n → ¬processedCtrl i ∨ contribVal i = none) :
    lastWrite l n = none := by
  induction l with
  | nil => rfl
  | cons i t ih =>
    have ht : lastWrite t n = none := ih (fun j hj => h j (List.mem_cons_of_mem _ hj))
    rw [lastWrite_cons, ht]
    by_cases hn : i.name = n
    · rcases h i (List.mem_cons_self _ _) hn with hp | hc
      · simp [hn, hp]
      · by_cases hpp : processedCtrl i <;> simp [hn, hpp, hc]
    · simp [hn]

/-- If some control bearing the key does contribute a value, the key
ends up written. -/
theorem lastWrite_isSome (l : List FormControl) (n : String) (i : FormControl)
    (hmem : i ∈ l) (hn : i.name = n) (hp : processedCtrl i) (hc : (contribVal i).isSome) :
    (lastWrite l n).isSome := by
  induction l with
  | nil => cases hmem
  | cons j t ih =>
    rw [lastWrite_cons]
    rcases List.mem_cons.mp hmem with hji | hmem2
    · cases ht : lastWrite t n with
      | some v => simp
      | none =>
        subst hji
        simp only [hn, hp, and_self, if_true]
        simpa using hc
    · have hs := ih hmem2
      cases ht : lastWrite t n with
      | some v => simp
      | none => rw [ht] at hs; simp at hs

/-- C6: for every named form control collected into the payload, a
checkbox serializes to the boolean of its checked state, and a radio
contributes its string value only when checked — a name all of whose
bearers are unchecked radios is absent from the payload rather than
mapped to empty or false. -/
theorem checkbox_radio_serialization (form : FormElement) (n : String)
    (hn : n ≠ "") (h1 : n ≠ "_honeypot_field_name") (h2 : n ≠ "_honeypot_filled")
    (h3 : n ≠ "fieldTypes") (h4 : n ≠ "fieldDataDescriptions") :
    (∀ c, form.controls.filter (fun i => i.name = n) = [c] → c.type = "checkbox" →
      jsGet (collectFormData form) n = some (JSValue.b c.checked)) ∧
    ((∀ i ∈ form.controls, i.name = n → i.type = "radio" ∧ i.checked = false) →
      jsGet (collectFormData form) n = none) ∧
    (∀ r, form.controls.filter (fun i => i.name = n) = [r] → r.type = "radio" →
      r.checked = true → jsGet (collectFormData form) n = some (JSValue.s r.value)) := by
  have hbase := jsGet_collectFormData form n h1 h2 h3 h4
  refine ⟨?_, ?_, ?_⟩
  · intro c hfil hc
    have hcmem : c ∈ form.controls.filter (fun i => i.name = n) := by
      rw [hfil]; exact List.mem_singleton.mpr rfl
    have hcname : c.name = n := by
      have h5 := (List.mem_filter.mp hcmem).2
      simpa using h5
    have hpc : processedCtrl c := ⟨by rw [hcname]; exact hn, by rw [hc]; decide⟩
    rw [hbase, lastWrite_filter, hfil, lastWrite_cons, lastWrite_nil]
    simp [hcname, hpc, contribVal, hc]
  · intro hall
    rw [hbase]
    exact lastWrite_eq_none form.controls n
      (fun i hi hiname => Or.inr (by simp [contribVal, (hall i hi hiname).1, (hall i hi hiname).2]))
  · intro r hfil hr hch
    have hrmem : r ∈ form.controls.filter (fun i => i.name = n) := by
      rw [hfil]; exact List.mem_singleton.mpr rfl
    have hrname : r.name = n := by
      have h5 := (List.mem_filter.mp hrmem).2
      simpa using h5
    have hpr : processedCtrl r := ⟨by rw [hrname]; exact hn, by rw [hr]; decide⟩
    rw [hbase, lastWrite_filter, hfil, lastWrite_cons, lastWrite_nil]
    simp [hrname, hpr, contribVal, hr, hch]

/-- A checked checkbox as it appears among a demo form's controls. -/
def demoCheckbox : FormControl :=
  { name := "agree", type := "checkbox", value := "on", checked := true,
    cfFieldType := some "checkbox", cfFieldData := some "consent choice",
    dataHoneypot := false, dataPageUrl := false }

/-- First radio of an entirely unchecked radio group. -/
def demoRadioA : FormControl :=
  { name := "color", type := "radio", value := "red", checked := false,
    cfFieldType := none, cfFieldData := none, dataHoneypot := false, dataPageUrl := false }

/-- Second radio of an entirely unchecked radio group. -/
def demoRadioB : FormControl :=
  { name := "color", type := "radio", value := "blue", checked := false,
    cfFieldType := none, cfFieldData := none, dataHoneypot := false, dataPageUrl := false }

/-- Demo form with a checked checkbox and an unchecked radio group. -/
def demoForm : FormElement := ⟨[demoCheckbox, demoRadioA, demoRadioB]⟩

theorem checkbox_radio_serialization_witness :
    jsGet (collectFormData demoForm) "agree" = some (JSValue.b true) ∧
    jsGet (collectFormData demoForm) "color" = none := by
  constructor
  · exact (checkbox_radio_serialization demoForm "agree" (by decide) (by decide)
      (by decide) (by decide) (by decide)).1 demoCheckbox (by decide) (by decide)
  · exact (checkbox_radio_serialization demoForm "color" (by decide) (by decide)
      (by decide) (by decide) (by decide)).2.1 (by decide)

/-- A named input of the button control type, as enumerated by the
collector's querySelectorAll("input, textarea, select"). -/
def buttonInput : FormControl :=
  { name := "btn", type := "button", value := "Click", checked := false,
    cfFieldType := none, cfFieldData := none, dataHoneypot := false, dataPageUrl := false }

/-- Form holding only the named button-type input. -/
def buttonForm : FormElement := ⟨[buttonInput]⟩

/-- C7 counterexample: the collector does not skip a named input of the
button control type — its string value appears in the payload, because
the guard on line 471 only excludes the submit type. -/
theorem button_input_collected :
    jsGet (collectFormData buttonForm) "btn" = some (JSValue.s "Click") := by decide

/-- C7 (amended): the collector skips exactly the elements that have no
name or whose control type is submit: the empty name never yields an
entry, a key all of whose bearers are submit controls is absent, and
every named non-submit control that writes a value (everything except
an unchecked radio) yields an entry for its name — button-type inputs
included. -/
theorem collector_skips_unnamed_and_submit (form : FormElement) (n : String)
    (h1 : n ≠ "_honeypot_field_name") (h2 : n ≠ "_honeypot_filled")
    (h3 : n ≠ "fieldTypes") (h4 : n ≠ "fieldDataDescriptions") :
    (jsGet (collectFormData form) "" = none) ∧
    ((∀ i ∈ form.controls, i.name = n → i.type = "submit") →
      jsGet (collectFormData form) n = none) ∧
    (∀ i ∈ form.controls, i.name ≠ "" → i.type ≠ "submit" →
      ¬(i.type = "radio" ∧ i.checked = false) →
      (jsGet (collectFormData form) i.name).isSome) := by
  refine ⟨?_, ?_, ?_⟩
  · rw [jsGet_collectFormData form "" (by decide) (by decide) (by decide) (by decide)]
    exact lastWrite_eq_none form.controls ""
      (fun i hi hiname => Or.inl (fun hp => hp.1 hiname))
  · intro hall
    rw [jsGet_collectFormData form n h1 h2 h3 h4]
    exact lastWrite_eq_none form.controls n
      (fun i hi hiname => Or.inl (fun hp => hp.2 (hall i hi hiname)))
  · intro i hi hname htype hradio
    have hp : processedCtrl i := ⟨hname, htype⟩
    have hc : (contribVal i).isSome := by
      unfold contribVal
      by_cases hcb : i.type = "checkbox"
      · simp [hcb]
      · by_cases hr : i.type = "radio"
        · have hch : i.checked = true := by
            by_contra hchf
            exact hradio ⟨hr, by simpa using hchf⟩
          simp [hcb, hr, hch]
        · simp [hcb, hr]
    have hlw : (lastWrite form.controls i.name).isSome :=
      lastWrite_isSome form.controls i.name i hi rfl hp hc
    have hbase : (jsGet (form.controls.foldl collectStep ⟨[], [], []⟩).formData i.name).isSome := by
      rw [jsGet_collectLoop]
      cases hlw2 : lastWrite form.controls i.name with
      | some v => simp
      | none => rw [hlw2] at hlw; simp at hlw
    unfold collectFormData
    simp only [enableHoneypot, if_pos]
    apply jsGet_jsAssign_isSome
    apply jsGet_jsAssign_isSome
    cases hf : form.controls.find? (fun j => j.dataHoneypot) with
    | some h =>
      apply jsGet_jsAssign_isSome
      apply jsGet_jsAssign_isSome
      exact hbase
    | none => exact hbase

/-- A named submit-type input (skipped by the collector). -/
def submitInput : FormControl :=
  { name := "go", type := "submit", value := "Go", checked := false,
    cfFieldType := none, cfFieldData := none, dataHoneypot := false, dataPageUrl := false }

/-- A named text input (collected). -/
def textInput : FormControl :=
  { name := "msg", type := "text", value := "hello", checked := false,
    cfFieldType := some "message", cfFieldData := some "free text",
    dataHoneypot := false, dataPageUrl := false }

/-- Form mixing a submit control with a text control. -/
def mixedForm : FormElement := ⟨[submitInput, textInput]⟩

theorem collector_skips_unnamed_and_submit_witness :
    jsGet (collectFormData mixedForm) "go" = none ∧
    (jsGet (collectFormData mixedForm) "msg").isSome := by
  constructor
  · exact (collector_skips_unnamed_and_submit mixedForm "go" (by decide) (by decide)
      (by decide) (by decide)).2.1 (by decide)
  · exact (collector_skips_unnamed_and_submit mixedForm "msg" (by decide) (by decide)
      (by decide) (by decide)).2.2 textInput (by decide) (by decide) (by decide) (by decide)

/-- The honeypot input created by setupHoneypot (type text, marked
data-honeypot, empty value). -/
def mkHoneypotField (nm : String) : FormControl :=
  { name := nm, type := "text", value := "", checked := false,
    cfFieldType := none, cfFieldData := none, dataHoneypot := true, dataPageUrl := false }

/-- The hidden page-URL input created by setupPageUrlField (named from
the configuration, typed system-metadata, carrying the page address). -/
def mkPageUrlField (url : String) : FormControl :=
  { name := pageUrlFieldName, type := "hidden", value := url, checked := false,
    cfFieldType := some "system-metadata", cfFieldData := none,
    dataHoneypot := false, dataPageUrl := true }

/-- setupHoneypot: does nothing when the feature is disabled or a
honeypot-marked input already exists; otherwise inserts at the start of
the form a honeypot input whose name is drawn from the fixed pool
(randIdx models the Math.random draw of an index into the pool). -/
def setupHoneypot (randIdx : Nat) (form : FormElement) : FormElement :=
  if !enableHoneypot then form
  else if form.controls.any (fun i => i.dataHoneypot) then form
  else
    { controls :=
        mkHoneypotField (honeypotFieldNames.getD (randIdx % honeypotFieldNames.length) "")
          :: form.controls }

/-- Update in place the value of the first control named Page URL (the
querySelector match). -/
def updateFirstPageUrl : List FormControl → String → List FormControl
  | [], _ => []
  | i :: t, url =>
    if i.name = pageUrlFieldName then { i with value := url } :: t
    else i :: updateFirstPageUrl t url

/-- setupPageUrlField: does nothing when disabled; updates the existing
Page URL input in place when present; otherwise inserts a fresh hidden
input carrying the page address at the start of the form. -/
def setupPageUrlField (url : String) (form : FormElement) : FormElement :=
  if !pageUrlFieldEnabled then form
  else if form.controls.any (fun i => i.name == pageUrlFieldName) then
    { controls := updateFirstPageUrl form.controls url }
  else { controls := mkPageUrlField url :: form.controls }

/-- Trap and metadata injection in the order setupSingleForm performs
it: honeypot first, then the page-URL field. -/
def setupTrapFields (randIdx : Nat) (url : String) (form : FormElement) : FormElement :=
  setupPageUrlField url (setupHoneypot randIdx form)

/-- Number of honeypot-marked inputs on the form. -/
def honeypotCount (form : FormElement) : Nat :=
  form.controls.countP (fun i => i.dataHoneypot)

/-- Number of inputs named Page URL on the form. -/
def pageUrlCount (form : FormElement) : Nat :=
  form.controls.countP (fun i => i.name == pageUrlFieldName)

theorem honeypotFieldNames_ne_pageUrl (k : Nat) :
    honeypotFieldNames.getD (k % honeypotFieldNames.length) "" ≠ pageUrlFieldName := by
  have hlen : honeypotFieldNames.length = 8 := by decide
  have hlt : k % honeypotFieldNames.length < 8 := by
    rw [hlen]; exact Nat.mod_lt _ (by decide)
  have hall : ∀ m, m < 8 → honeypotFieldNames.getD m "" ≠ pageUrlFieldName := by decide
  exact hall _ hlt

theorem updateFirstPageUrl_countP (l : List FormControl) (url : String)
    (p : FormControl → Bool) (hp : ∀ i, p { i with value := url } = p i) :
    (updateFirstPageUrl l url).countP p = l.countP p := by
  induction l with
  | nil => rfl
  | cons i t ih =>
    rw [show updateFirstPageUrl (i :: t) url =
        (if i.name = pageUrlFieldName then { i with value := url } :: t
         else i :: updateFirstPageUrl t url) from rfl]
    by_cases hn : i.name = pageUrlFieldName
    · rw [if_pos hn, List.countP_cons, List.countP_cons, hp i]
    · rw [if_neg hn, List.countP_cons, List.countP_cons, ih]

/-- C5: on a form initially carrying no honeypot-marked input and no
Page URL input, running the trap/metadata injection twice leaves
exactly one honeypot field and exactly one Page URL field. -/
theorem trap_injection_idempotent (form : FormElement) (r1 r2 : Nat) (u1 u2 : String)
    (hh : honeypotCount form = 0) (hp : pageUrlCount form = 0) :
    honeypotCount (setupTrapFields r2 u2 (setupTrapFields r1 u1 form)) = 1 ∧
    pageUrlCount (setupTrapFields r2 u2 (setupTrapFields r1 u1 form)) = 1 := by
  have hh0 : form.controls.countP (fun i => i.dataHoneypot) = 0 := hh
  have hp0 : form.controls.countP (fun i => i.name == pageUrlFieldName) = 0 := hp
  have hname := honeypotFieldNames_ne_pageUrl r1
  generalize hX : honeypotFieldNames.getD (r1 % honeypotFieldNames.length) "" = nm at hname
  have hhany : form.controls.any (fun i => i.dataHoneypot) = false := by
    rw [List.any_eq_false]
    intro i hi
    have h6 := List.countP_eq_zero.mp hh0 i hi
    simpa using h6
  have hpany : form.controls.any (fun i => i.name == pageUrlFieldName) = false := by
    rw [List.any_eq_false]
    intro i hi
    have h6 := List.countP_eq_zero.mp hp0 i hi
    simpa using h6
  have hbeq : ((mkHoneypotField nm).name == pageUrlFieldName) = false :=
    beq_eq_false_iff_ne.mpr hname
  have hf1 : setupHoneypot r1 form = ⟨mkHoneypotField nm :: form.controls⟩ := by
    unfold setupHoneypot
    rw [hX]
    simp [enableHoneypot, hhany]
  have hf1hc : honeypotCount ⟨mkHoneypotField nm :: form.controls⟩ = 1 := by
    show (mkHoneypotField nm :: form.controls).countP (fun i => i.dataHoneypot) = 1
    rw [List.countP_cons, hh0]
    rfl
  have hf1pc : pageUrlCount ⟨mkHoneypotField nm :: form.controls⟩ = 0 := by
    show (mkHoneypotField nm :: form.controls).countP (fun i => i.name == pageUrlFieldName) = 0
    rw [List.countP_cons, hp0, hbeq]
    rfl
  have hf1pany : (mkHoneypotField nm :: form.controls).any
      (fun i => i.name == pageUrlFieldName) = false := by
    rw [List.any_eq_false]
    intro i hi
    rcases List.mem_cons.mp hi with hieq | hmem
    · subst hieq
      simp only [hbeq]
      exact Bool.false_ne_true
    · have h6 := List.countP_eq_zero.mp hp0 i hmem
      simpa using h6
  have hf2 : setupTrapFields r1 u1 form =
      ⟨mkPageUrlField u1 :: mkHoneypotField nm :: form.controls⟩ := by
    rw [setupTrapFields, hf1]
    unfold setupPageUrlField
    simp [pageUrlFieldEnabled, hf1pany]
  have hl2hc : honeypotCount ⟨mkPageUrlField u1 :: mkHoneypotField nm :: form.controls⟩ = 1 := by
    show (mkPageUrlField u1 :: mkHoneypotField nm :: form.controls).countP
        (fun i => i.dataHoneypot) = 1
    rw [List.countP_cons]
    have h7 : (mkHoneypotField nm :: form.controls).countP (fun i => i.dataHoneypot) = 1 := hf1hc
    rw [h7]
    rfl
  have hl2pc : pageUrlCount ⟨mkPageUrlField u1 :: mkHoneypotField nm :: form.controls⟩ = 1 := by
    show (mkPageUrlField u1 :: mkHoneypotField nm :: form.controls).countP
        (fun i => i.name == pageUrlFieldName) = 1
    rw [List.countP_cons]
    have h7 : (mkHoneypotField nm :: form.controls).countP
        (fun i => i.name == pageUrlFieldName) = 0 := hf1pc
    rw [h7]
    rfl
  have hl2hany : (mkPageUrlField u1 :: mkHoneypotField nm :: form.controls).any
      (fun i => i.dataHoneypot) = true := by
    rw [List.any_eq_true]
    exact ⟨mkHoneypotField nm, by simp [mkHoneypotField]⟩
  have hl2pany : (mkPageUrlField u1 :: mkHoneypotField nm :: form.controls).any
      (fun i => i.name == pageUrlFieldName) = true := by
    rw [List.any_eq_true]
    exact ⟨mkPageUrlField u1, by simp [mkPageUrlField]⟩
  have hf3 : setupTrapFields r2 u2 ⟨mkPageUrlField u1 :: mkHoneypotField nm :: form.controls⟩ =
      ⟨updateFirstPageUrl (mkPageUrlField u1 :: mkHoneypotField nm :: form.controls) u2⟩ := by
    rw [setupTrapFields]
    have h8 : setupHoneypot r2 ⟨mkPageUrlField u1 :: mkHoneypotField nm :: form.controls⟩ =
        ⟨mkPageUrlField u1 :: mkHoneypotField nm :: form.controls⟩ := by
      unfold setupHoneypot
      simp [enableHoneypot, hl2hany]
    rw [h8]
    unfold setupPageUrlField
    simp [pageUrlFieldEnabled, hl2pany]
  rw [hf2, hf3]
  constructor
  · show (updateFirstPageUrl (mkPageUrlField u1 :: mkHoneypotField nm :: form.controls) u2).countP
        (fun i => i.dataHoneypot) = 1
    rw [updateFirstPageUrl_countP _ _ _ (fun i => rfl)]
    exact hl2hc
  · show (updateFirstPageUrl (mkPageUrlField u1 :: mkHoneypotField nm :: form.controls) u2).countP
        (fun i => i.name == pageUrlFieldName) = 1
    rw [updateFirstPageUrl_countP _ _ _ (fun i => rfl)]
    exact hl2pc

theorem trap_injection_idempotent_witness :
    honeypotCount ⟨[]⟩ = 0 ∧ pageUrlCount ⟨[]⟩ = 0 ∧
    honeypotCount (setupTrapFields 3 "https://b.example/p" (setupTrapFields 5 "https://a.example/p" ⟨[]⟩)) = 1 ∧
    pageUrlCount (setupTrapFields 3 "https://b.example/p" (setupTrapFields 5 "https://a.example/p" ⟨[]⟩)) = 1 :=
  ⟨by decide, by decide,
    (trap_injection_idempotent ⟨[]⟩ 5 3 "https://a.example/p" "https://b.example/p"
      (by decide) (by decide)).1,
    (trap_injection_idempotent ⟨[]⟩ 5 3 "https://a.example/p" "https://b.example/p"
      (by decide) (by decide)).2⟩

/-- Submit button state: disabled flag and inline opacity style. -/
structure ButtonState where
  disabled : Bool
  opacity : String
deriving DecidableEq

/-- State of the designated error region node: whether the hide class
is currently applied. -/
structure ErrorRegionState where
  hasHideClass : Bool
deriving DecidableEq

/-- State of the success element: its display style. -/
structure SuccessState where
  display : String
deriving DecidableEq

/-- The per-form registration built by setupSingleForm, restricted to
the mutable state the submission path reads and writes. Option models
a missing DOM reference or a still-undefined property; submitLabel and
errorText hold the text content of the respective nodes when present. -/
structure FormConfigState where
  turnstileToken : Option String
  widgetId : Option Nat
  submitButton : Option ButtonState
  submitLabel : Option String
  originalButtonText : Option String
  errorElement : Option ErrorRegionState
  errorText : Option String
  successElement : Option SuccessState
  formDisplayNone : Bool
deriving DecidableEq

/-- Outcome of showError: the updated registration plus the alert text
when the fallback channel was used. -/
structure ShowErrorResult where
  config : FormConfigState
  alerted : Option String
deriving DecidableEq

/-- showError: when both the error region and the error-text node are
configured, write the message and remove the hide class; otherwise fall
back to a blocking alert carrying the message. -/
def showError (cfg : FormConfigState) (message : String) : ShowErrorResult :=
  match cfg.errorElement, cfg.errorText with
  | some er, some _ =>
    { config :=
        { cfg with
          errorText := some message,
          errorElement := some { er with hasHideClass := false } },
      alerted := none }
  | _, _ => { config := cfg, alerted := some message }

/-- hideError: add the hide class to the error region when it exists;
otherwise do nothing. -/
def hideError (cfg : FormConfigState) : FormConfigState :=
  match cfg.errorElement with
  | some er => { cfg with errorElement := some { er with hasHideClass := true } }
  | none => cfg

/-- enableSubmitButton. -/
def enableSubmitButton (cfg : FormConfigState) : FormConfigState :=
  match cfg.submitButton with
  | some _ => { cfg with submitButton := some { disabled := false, opacity := "1" } }
  | none => cfg

/-- disableSubmitButton. -/
def disableSubmitButton (cfg : FormConfigState) : FormConfigState :=
  match cfg.submitButton with
  | some _ => { cfg with submitButton := some { disabled := true, opacity := "0.6" } }
  | none => cfg

/-- setSubmitButtonLoading: entering loading disables the button and,
when a label node exists, saves its current text into
originalButtonText before overwriting it with the loading text; leaving
loading re-enables the button and restores the saved text only when the
label node exists and the saved text is truthy (a missing or empty
saved text is skipped by the falsy-string guard). -/
def setSubmitButtonLoading (cfg : FormConfigState) (loading : Bool) : FormConfigState :=
  match cfg.submitButton with
  | none => cfg
  | some b =>
    if loading then
      let cfga := { cfg with submitButton := some { b with disabled := true } }
      match cfga.submitLabel with
      | some lbl =>
        { cfga with originalButtonText := some lbl, submitLabel := some loadingText }
      | none => cfga
    else
      let cfgb := { cfg with submitButton := some { b with disabled := false } }
      if cfgb.submitLabel.isSome && jsTruthyStr cfgb.originalButtonText then
        { cfgb with submitLabel := cfgb.originalButtonText }
      else cfgb

/-- Effects of resetTurnstileOnError: when the provider is present it
requests a widget reset (targeting the stored widget handle, or the
global fallback when there is none), clears the token, disables the
submit button and arms the one-second re-render timer; when the
provider is absent it does nothing at all. -/
structure ResetOutcome where
  config : FormConfigState
  resetTarget : Option (Option Nat)
  rerenderTimerArmed : Bool
deriving DecidableEq

def resetTurnstileOnError (turnstilePresent : Bool) (cfg : FormConfigState) : ResetOutcome :=
  if turnstilePresent then
    { config := disableSubmitButton { cfg with turnstileToken := none },
      resetTarget := some cfg.widgetId,
      rerenderTimerArmed := true }
  else
    { config := cfg, resetTarget := none, rerenderTimerArmed := false }

/-- Effects of handleSuccess: hide the form, reveal the success element
when configured, request a global (handle-less) widget reset when the
provider is present, and clear the token. -/
structure SuccessOutcome where
  config : FormConfigState
  globalResetCalled : Bool
deriving DecidableEq

def handleSuccess (turnstilePresent : Bool) (cfg : FormConfigState) : SuccessOutcome :=
  let cfg1 := { cfg with formDisplayNone := true }
  let cfg2 :=
    match cfg1.successElement with
    | some _ => { cfg1 with successElement := some { display := "block" } }
    | none => cfg1
  { config := { cfg2 with turnstileToken := none },
    globalResetCalled := turnstilePresent }

/-- Result of the fetch round-trip as handleFormSubmit observes it: a
parsed JSON response carrying the success flag and the optional error
message, or a network/parse failure taking the catch path. -/
inductive FetchOutcome where
  | response (success : Bool) (errMessage : Option String)
  | networkFailure
deriving DecidableEq

/-- Trace of one handleFormSubmit run: the final registration state
plus the externally observable effects (whether fetch was issued,
whether loading was entered, every message surfaced through showError
in order, and the widget reset requests). -/
structure SubmitOutcome where
  config : FormConfigState
  fetchCalled : Bool
  enteredLoading : Bool
  messagesShown : List String
  resetTarget : Option (Option Nat)
  rerenderTimerArmed : Bool
  globalResetCalled : Bool
deriving DecidableEq

/-- handleFormSubmit: clear any previous error; abort with the
verification-required message when the token is falsy (null); otherwise
enter loading, issue the fetch, route the outcome (success handling, or
reset plus the collaborator message with its generic fallback, or reset
plus the network-error message), and unconditionally leave loading in
the finally clause. -/
def handleFormSubmit (turnstilePresent : Bool) (cfg0 : FormConfigState)
    (fetchResult : FetchOutcome) : SubmitOutcome :=
  if !(jsTruthyStr (hideError cfg0).turnstileToken) then
    { config := (showError (hideError cfg0) verificationRequiredMessage).config,
      fetchCalled := false, enteredLoading := false,
      messagesShown := [verificationRequiredMessage],
      resetTarget := none, rerenderTimerArmed := false, globalResetCalled := false }
  else
    match fetchResult with
    | .response true _ =>
      { config := setSubmitButtonLoading
          (handleSuccess turnstilePresent
            (setSubmitButtonLoading (hideError cfg0) true)).config false,
        fetchCalled := true, enteredLoading := true, messagesShown := [],
        resetTarget := none, rerenderTimerArmed := false,
        globalResetCalled := (handleSuccess turnstilePresent
          (setSubmitButtonLoading (hideError cfg0) true)).globalResetCalled }
    | .response false errMessage =>
      { config := setSubmitButtonLoading
          (showError (resetTurnstileOnError turnstilePresent
              (setSubmitButtonLoading (hideError cfg0) true)).config
            (if jsTruthyStr errMessage then errMessage.getD ""
             else genericFallbackMessage)).config false,
        fetchCalled := true, enteredLoading := true,
        messagesShown := [if jsTruthyStr errMessage then errMessage.getD ""
          else genericFallbackMessage],
        resetTarget := (resetTurnstileOnError turnstilePresent
          (setSubmitButtonLoading (hideError cfg0) true)).resetTarget,
        rerenderTimerArmed := (resetTurnstileOnError turnstilePresent
          (setSubmitButtonLoading (hideError cfg0) true)).rerenderTimerArmed,
        globalResetCalled := false }
    | .networkFailure =>
      { config := setSubmitButtonLoading
          (showError (resetTurnstileOnError turnstilePresent
              (setSubmitButtonLoading (hideError cfg0) true)).config
            networkErrorMessage).config false,
        fetchCalled := true, enteredLoading := true,
        messagesShown := [networkErrorMessage],
        resetTarget := (resetTurnstileOnError turnstilePresent
          (setSubmitButtonLoading (hideError cfg0) true)).resetTarget,
        rerenderTimerArmed := (resetTurnstileOnError turnstilePresent
          (setSubmitButtonLoading (hideError cfg0) true)).rerenderTimerArmed,
        globalResetCalled := false }

theorem hideError_turnstileToken (cfg : FormConfigState) :
    (hideError cfg).turnstileToken = cfg.turnstileToken := by
  unfold hideError
  cases cfg.errorElement <;> rfl

/-- C1: a submission attempted while the challenge token is null makes
no network call, enters no loading state, and surfaces exactly the
verification-required message. -/
theorem null_token_no_network (turnstilePresent : Bool) (cfg : FormConfigState)
    (fetchResult : FetchOutcome) (h : cfg.turnstileToken = none) :
    (handleFormSubmit turnstilePresent cfg fetchResult).fetchCalled = false ∧
    (handleFormSubmit turnstilePresent cfg fetchResult).enteredLoading = false ∧
    (handleFormSubmit turnstilePresent cfg fetchResult).messagesShown =
      [verificationRequiredMessage] := by
  have h1 : (hideError cfg).turnstileToken = none := by
    rw [hideError_turnstileToken, h]
  unfold handleFormSubmit
  rw [h1]
  simp [jsTruthyStr]

/-- Registration with no token yet (widget rendered, challenge not
solved). -/
def noTokenConfig : FormConfigState :=
  { turnstileToken := none, widgetId := some 0,
    submitButton := some { disabled := true, opacity := "0.6" },
    submitLabel := some "Send", originalButtonText := none,
    errorElement := some { hasHideClass := true }, errorText := some "",
    successElement := none, formDisplayNone := false }

theorem null_token_no_network_witness :
    noTokenConfig.turnstileToken = none ∧
    (handleFormSubmit true noTokenConfig (.response true none)).fetchCalled = false ∧
    (handleFormSubmit true noTokenConfig (.response true none)).enteredLoading = false ∧
    (handleFormSubmit true noTokenConfig (.response true none)).messagesShown =
      [verificationRequiredMessage] :=
  ⟨rfl, (null_token_no_network true noTokenConfig (.response true none) rfl).1,
    (null_token_no_network true noTokenConfig (.response true none) rfl).2.1,
    (null_token_no_network true noTokenConfig (.response true none) rfl).2.2⟩

/-- Registration at the moment of a submit with a live token. -/
def tokenedConfig : FormConfigState :=
  { turnstileToken := some "tok-123", widgetId := some 0,
    submitButton := some { disabled := false, opacity := "1" },
    submitLabel := some "Send", originalButtonText := none,
    errorElement := some { hasHideClass := true }, errorText := some "",
    successElement := none, formDisplayNone := false }

/-- C2 evaluated at the failing input: after a success: false response,
the token is cleared and the collaborator message (or its generic
fallback) is shown, but the finally clause has re-enabled the submit
control — disabled is false (with the dimmed opacity left behind by the
reset), contradicting the claimed disabled end state. -/
theorem failed_verification_reenables_submit :
    (handleFormSubmit true tokenedConfig
      (.response false (some "Blocked."))).config.turnstileToken = none ∧
    (handleFormSubmit true tokenedConfig
      (.response false (some "Blocked."))).messagesShown = ["Blocked."] ∧
    (handleFormSubmit true tokenedConfig
      (.response false none)).messagesShown = [genericFallbackMessage] ∧
    (handleFormSubmit true tokenedConfig
      (.response false (some "Blocked."))).config.submitButton =
      some { disabled := false, opacity := "0.6" } := by decide

/-- One full loading cycle as driven by handleFormSubmit: enter then
leave the loading presentation. -/
def loadingCycle (cfg : FormConfigState) : FormConfigState :=
  setSubmitButtonLoading (setSubmitButtonLoading cfg true) false

/-- n consecutive completed loading cycles. -/
def loadingCycles : Nat → FormConfigState → FormConfigState
  | 0, cfg => cfg
  | n + 1, cfg => loadingCycles n (loadingCycle cfg)

/-- Submit area whose label text is initially the empty string. -/
def emptyLabelConfig : FormConfigState :=
  { turnstileToken := none, widgetId := none,
    submitButton := some { disabled := false, opacity := "1" },
    submitLabel := some "", originalButtonText := none,
    errorElement := none, errorText := none,
    successElement := none, formDisplayNone := false }

/-- C8 counterexample: a single completed loading cycle starting from
an empty submit label does not restore it verbatim — the falsy-string
guard skips the restore and the label keeps the loading text. -/
theorem empty_label_not_restored :
    emptyLabelConfig.submitLabel = some "" ∧
    (loadingCycle emptyLabelConfig).submitLabel = some loadingText := by decide

theorem loadingCycle_restores (cfg : FormConfigState) (b : ButtonState) (lbl : String)
    (hb : cfg.submitButton = some b) (hl : cfg.submitLabel = some lbl) (hne : lbl ≠ "") :
    (loadingCycle cfg).submitLabel = some lbl ∧
    (loadingCycle cfg).submitButton = some { b with disabled := false } := by
  have hbeq : (lbl == "") = false := beq_eq_false_iff_ne.mpr hne
  unfold loadingCycle setSubmitButtonLoading
  rw [hb]
  simp [hl, jsTruthyStr, hbeq, loadingText]

/-- C8 (amended): for strictly alternating loading cycles with a
non-empty label, leaving loading restores the label verbatim, over
arbitrarily many repeated cycles; however the saved original is
re-captured from the current label text at each entry into loading,
not captured once before the first mutation. -/
theorem alternating_loading_cycles_restore_label (n : Nat) (cfg : FormConfigState)
    (b : ButtonState) (lbl : String) (hb : cfg.submitButton = some b)
    (hl : cfg.submitLabel = some lbl) (hne : lbl ≠ "") :
    (loadingCycles n cfg).submitLabel = some lbl ∧
    (setSubmitButtonLoading cfg true).originalButtonText = some lbl := by
  constructor
  · induction n generalizing cfg b with
    | zero => simpa [loadingCycles] using hl
    | succ k ih =>
      have h1 := loadingCycle_restores cfg b lbl hb hl hne
      exact ih (loadingCycle cfg) { b with disabled := false } h1.2 h1.1
  · unfold setSubmitButtonLoading
    rw [hb]
    simp [hl]

/-- Submit area with the non-empty label Send. -/
def sendLabelConfig : FormConfigState :=
  { turnstileToken := none, widgetId := none,
    submitButton := some { disabled := false, opacity := "1" },
    submitLabel := some "Send", originalButtonText := none,
    errorElement := none, errorText := none,
    successElement := none, formDisplayNone := false }

theorem alternating_loading_cycles_restore_label_witness :
    sendLabelConfig.submitLabel = some "Send" ∧ "Send" ≠ "" ∧
    (loadingCycles 2 sendLabelConfig).submitLabel = some "Send" ∧
    (setSubmitButtonLoading sendLabelConfig true).originalButtonText = some "Send" :=
  ⟨rfl, by decide,
    (alternating_loading_cycles_restore_label 2 sendLabelConfig
      { disabled := false, opacity := "1" } "Send" rfl rfl (by decide)).1,
    (alternating_loading_cycles_restore_label 2 sendLabelConfig
      { disabled := false, opacity := "1" } "Send" rfl rfl (by decide)).2⟩

/-- C10: when either error node is missing, showError falls back to a
blocking alert carrying the message (leaving the registration
untouched); in every case the message is surfaced on some channel
(alert, or the unhidden inline error text); and hiding an error is a
no-op when the error region is absent. -/
theorem show_error_always_surfaces (cfg : FormConfigState) (message : String) :
    ((cfg.errorElement = none ∨ cfg.errorText = none) →
      (showError cfg message).alerted = some message ∧
      (showError cfg message).config = cfg) ∧
    ((showError cfg message).alerted = some message ∨
      ((showError cfg message).config.errorText = some message ∧
        ∃ er, (showError cfg message).config.errorElement = some er ∧
          er.hasHideClass = false)) ∧
    (cfg.errorElement = none → hideError cfg = cfg) := by
  unfold showError hideError
  cases he : cfg.errorElement with
  | none =>
    cases ht : cfg.errorText <;> simp
  | some er =>
    cases ht : cfg.errorText with
    | none => simp
    | some t =>
      refine ⟨?_, ?_, ?_⟩
      · rintro (hc | hc) <;> cases hc
      · exact Or.inr ⟨rfl, ⟨{ hasHideClass := false }, rfl, rfl⟩⟩
      · intro hc; cases hc

/-- Registration with an error region but no error-text node. -/
def alertOnlyConfig : FormConfigState :=
  { turnstileToken := none, widgetId := none,
    submitButton := none, submitLabel := none, originalButtonText := none,
    errorElement := some { hasHideClass := true }, errorText := none,
    successElement := none, formDisplayNone := false }

theorem show_error_always_surfaces_witness :
    alertOnlyConfig.errorText = none ∧
    (showError alertOnlyConfig "Blocked.").alerted = some "Blocked." :=
  ⟨rfl, ((show_error_always_surfaces alertOnlyConfig "Blocked.").1 (Or.inr rfl)).1⟩

/-- Flags of a dispatched submit event. -/
structure SubmitEvent where
  defaultPrevented : Bool
  propagationStopped : Bool
  immediateStopped : Bool
deriving DecidableEq

/-- What one listener invocation did to the event and whether it
invoked handleFormSubmit. -/
structure ListenerOutcome where
  event : SubmitEvent
  calledPreventDefault : Bool
  invokedHandleFormSubmit : Bool
deriving DecidableEq

/-- The first submit listener attached by setupFormSubmission: when the
form fails checkValidity it returns at once (no preventDefault, no
handling); when valid it prevents default, stops propagation (also
immediately) and invokes handleFormSubmit. -/
def primarySubmitListener (formValid : Bool) (e : SubmitEvent) : ListenerOutcome :=
  if !formValid then
    { event := e, calledPreventDefault := false, invokedHandleFormSubmit := false }
  else
    { event :=
        { e with
          defaultPrevented := true,
          propagationStopped := true,
          immediateStopped := true },
      calledPreventDefault := true, invokedHandleFormSubmit := true }

/-- The second, capture-phase listener attached by setupFormSubmission:
it unconditionally calls preventDefault. -/
def backstopSubmitListener (e : SubmitEvent) : ListenerOutcome :=
  { event := { e with defaultPrevented := true },
    calledPreventDefault := true, invokedHandleFormSubmit := false }

/-- Outcome of dispatching one native submit event on a wired form. -/
structure DispatchResult where
  event : SubmitEvent
  primaryPrevented : Bool
  backstopPrevented : Bool
  handleFormSubmitInvoked : Bool
deriving DecidableEq

/-- Dispatch of a submit event at its target: the two listeners run in
registration order (at the target the capture flag does not reorder
them), and a listener is skipped when an earlier one called
stopImmediatePropagation. -/
def dispatchSubmit (formValid : Bool) : DispatchResult :=
  let e0 : SubmitEvent :=
    { defaultPrevented := false, propagationStopped := false, immediateStopped := false }
  let r1 := primarySubmitListener formValid e0
  if r1.event.immediateStopped then
    { event := r1.event, primaryPrevented := r1.calledPreventDefault,
      backstopPrevented := false,
      handleFormSubmitInvoked := r1.invokedHandleFormSubmit }
  else
    let r2 := backstopSubmitListener r1.event
    { event := r2.event, primaryPrevented := r1.calledPreventDefault,
      backstopPrevented := r2.calledPreventDefault,
      handleFormSubmitInvoked := r1.invokedHandleFormSubmit }

/-- C3 counterexample: on a native submit that fails constraint
validation the event is nevertheless suppressed — the capture-phase
backstop listener applies preventDefault unconditionally. -/
theorem invalid_submit_default_prevented :
    (dispatchSubmit false).event.defaultPrevented = true := by decide

/-- C3 (amended): on an invalid submit the primary listener does
nothing further — it neither invokes the submission handler nor calls
preventDefault — but the capture-phase backstop listener still calls
preventDefault unconditionally, so the native event is suppressed
rather than left to the browser. -/
theorem invalid_submit_primary_inert_backstop_prevents :
    (dispatchSubmit false).handleFormSubmitInvoked = false ∧
    (dispatchSubmit false).primaryPrevented = false ∧
    (dispatchSubmit false).backstopPrevented = true ∧
    (dispatchSubmit false).event.defaultPrevented = true := by decide

/-- Page-level state of the challenge-provider script: whether
window.turnstile is defined, how many script elements have been
appended to the head, how many load callbacks are pending on appended
scripts, and how many callbacks ran synchronously. -/
structure PageScriptState where
  turnstilePresent : Bool
  scriptsAppended : Nat
  pendingOnloadCallbacks : Nat
  callbacksRunNow : Nat
deriving DecidableEq

/-- loadTurnstile: when window.turnstile is not yet defined it creates
and appends a new script element whose onload will run the callback;
when already defined it runs the callback at once. Appending a script
does not make the provider present — that happens only when the
asynchronous load completes. -/
def loadTurnstile (st : PageScriptState) : PageScriptState :=
  if !st.turnstilePresent then
    { st with
      scriptsAppended := st.scriptsAppended + 1,
      pendingOnloadCallbacks := st.pendingOnloadCallbacks + 1 }
  else
    { st with callbacksRunNow := st.callbacksRunNow + 1 }

/-- setupForms over n discovered forms: each setupSingleForm calls
loadTurnstile once, synchronously, within the same event-loop turn. -/
def setupNForms : Nat → PageScriptState → PageScriptState
  | 0, st => st
  | n + 1, st => setupNForms n (loadTurnstile st)

/-- C4 counterexample: two forms set up before the provider script has
loaded append two script elements — the load is not a once-per-page
singleton. -/
theorem two_forms_two_scripts :
    ¬((setupNForms 2
        { turnstilePresent := false, scriptsAppended := 0,
          pendingOnloadCallbacks := 0, callbacksRunNow := 0 }).scriptsAppended ≤ 1) := by
  decide

/-- C4 (amended): every setup performed while the provider is absent
appends its own script element — n forms set up before the script
finishes loading append n script elements, each render request waiting
on its own script's load — and only when the provider is already
present is no script appended, the callback running immediately. -/
theorem script_appended_per_setup (n a p c : Nat) :
    (setupNForms n
      { turnstilePresent := false, scriptsAppended := a,
        pendingOnloadCallbacks := p, callbacksRunNow := c }).scriptsAppended = a + n ∧
    (setupNForms n
      { turnstilePresent := false, scriptsAppended := a,
        pendingOnloadCallbacks := p, callbacksRunNow := c }).pendingOnloadCallbacks = p + n ∧
    (setupNForms n
      { turnstilePresent := true, scriptsAppended := a,
        pendingOnloadCallbacks := p, callbacksRunNow := c }).scriptsAppended = a ∧
    (setupNForms n
      { turnstilePresent := true, scriptsAppended := a,
        pendingOnloadCallbacks := p, callbacksRunNow := c }).callbacksRunNow = c + n := by
  induction n generalizing a p c with
  | zero => simp [setupNForms]
  | succ k ih =>
    have h1 := ih (a + 1) (p + 1) c
    have h2 := ih a p (c + 1)
    refine ⟨?_, ?_, ?_, ?_⟩
    · simpa [setupNForms, loadTurnstile, Nat.add_assoc, Nat.add_comm, Nat.add_left_comm]
        using h1.1
    · simpa [setupNForms, loadTurnstile, Nat.add_assoc, Nat.add_comm, Nat.add_left_comm]
        using h1.2.1
    · simpa [setupNForms, loadTurnstile] using h2.2.2.1
    · simpa [setupNForms, loadTurnstile, Nat.add_assoc, Nat.add_comm, Nat.add_left_comm]
        using h2.2.2.2

/-- One node matching the success selector, in document order. -/
structure SuccessNode where
  display : String
deriving DecidableEq

/-- Document-level state shared by every registration: the nodes in the
whole document that match the success selector. -/
structure PageDocState where
  successNodes : List SuccessNode
deriving DecidableEq

/-- The slice of a registration relevant to cross-form isolation: its
identity, token, widget handle, its own form's visibility, and the
reference produced for the success element — an index into the
document-wide node list. -/
structure Registration where
  formId : String
  turnstileToken : Option String
  widgetId : Option Nat
  formDisplayNone : Bool
  successRef : Option Nat
deriving DecidableEq

/-- setupSingleForm resolves the success element with a document-wide
document.querySelector — the first matching node of the whole page, not
a query scoped to the form element (line 110 of the source). -/
def resolveSuccessRef (doc : PageDocState) : Option Nat :=
  if doc.successNodes.isEmpty then none else some 0

/-- The registration created by setupSingleForm (token starts null,
widget handle assigned at render time). -/
def mkRegistration (doc : PageDocState) (fid : String) (wid : Nat) : Registration :=
  { formId := fid, turnstileToken := none, widgetId := some wid,
    formDisplayNone := false, successRef := resolveSuccessRef doc }

/-- handleSuccess for one registration: hide its own form, set display
block on the node its successRef designates, and clear its own token
(the handle-less global widget reset it also issues has a
provider-defined target and is not tracked here). -/
def handleSuccessOnPage (doc : PageDocState) (reg : Registration) :
    PageDocState × Registration :=
  let reg1 := { reg with formDisplayNone := true }
  let doc1 :=
    match reg1.successRef with
    | some i =>
      { doc with successNodes := doc.successNodes.set i { display := "block" } }
    | none => doc
  (doc1, { reg1 with turnstileToken := none })

/-- Success handling applied to the j-th registration of the page. -/
def pageHandleSuccess (doc : PageDocState) (regs : List Registration) (j : Nat) :
    PageDocState × List Registration :=
  match regs[j]? with
  | none => (doc, regs)
  | some r =>
    let pr := handleSuccessOnPage doc r
    (pr.1, regs.set j pr.2)

/-- Page with one success element, initially hidden. -/
def demoDoc : PageDocState := ⟨[{ display := "none" }]⟩

/-- First registered form of the demo page. -/
def regA : Registration := mkRegistration demoDoc "form-a" 0

/-- Second registered form of the demo page. -/
def regB : Registration := mkRegistration demoDoc "form-b" 1

/-- C9 counterexample: on a page with two wired forms and one success
element, both registrations hold a reference to the same success node —
ownership is not exclusive — and success handling performed for form-a
mutates the very node form-b's reference designates. -/
theorem success_element_shared_across_forms :
    regA.successRef = regB.successRef ∧
    regA.successRef = some 0 ∧
    demoDoc.successNodes[0]? = some { display := "none" } ∧
    (handleSuccessOnPage demoDoc regA).1.successNodes[0]? =
      some { display := "block" } := by decide

/-- C9 (amended): per-form registration state is isolated — success
handling for one registration leaves every other registration (token,
widget handle, visibility, references) unchanged — but the success
element is not owned exclusively: it is resolved document-wide, so all
registrations on a page share the first matching node, and one form's
success handling mutates that shared node. -/
theorem per_form_state_isolated_except_success (doc : PageDocState)
    (regs : List Registration) (i j : Nat) (hij : i ≠ j) :
    (pageHandleSuccess doc regs j).2[i]? = regs[i]? ∧
    (∀ f1 f2 w1 w2,
      (mkRegistration doc f1 w1).successRef = (mkRegistration doc f2 w2).successRef) := by
  constructor
  · unfold pageHandleSuccess
    cases hr : regs[j]? with
    | none => rfl
    | some r =>
      simp only
      exact List.getElem?_set_ne (fun hh => hij hh.symm)
  · intro f1 f2 w1 w2
    rfl

theorem per_form_state_isolated_witness :
    (0 : Nat) ≠ 1 ∧
    (pageHandleSuccess demoDoc [regA, regB] 1).2[0]? = some regA ∧
    regA.successRef = regB.successRef := by
  refine ⟨by decide, ?_, ?_⟩
  · have h := (per_form_state_isolated_except_success demoDoc [regA, regB] 0 1
      (by decide)).1
    rw [h]
    rfl
  · exact (per_form_state_isolated_except_success demoDoc [regA, regB] 0 1
      (by decide)).2 "form-a" "form-b" 0 1

end TurnstileHandler
